import Mathlib

/-!
Verification development for the smile storage engine core:
the extent-addressed `FileStorage` (src/src/storage/file_storage.cpp) and the
paged B+tree node layer (src/src/data/impl/btree_impl.h).

The C++ code is shallowly embedded: each member function becomes a Lean
function over an explicit state record.  Machine integers are modelled as
`Nat`; the only place where unsigned overflow matters is the `uint32`
expression `numExtents - 1` inside `FileStorage::reserve`, which is modelled
with an explicit `% 2^32`.  The `fstream` handle is modelled by an `m_isOpen`
flag together with an idealized backing file: seeks and in-bounds I/O on an
open stream succeed, any seek on a closed stream fails (sets the fail bit),
exactly as the error branches of the source distinguish them.
-/

/-- Error codes used by the core.  The enum itself lives in a header that is
not part of src/; the constructor names are the ones used by
file_storage.cpp and btree_impl.h, plus the spec's table (section 6).
`E_BUFFER_POOL_PIN_FAILED` / `E_BUFFER_POOL_UNPIN_FAILED` are modelled from
the spec: buffer-pool operations "All return an ErrorCode" (section 4.2) but
their specific failure codes are outside src/. -/
inductive ErrorCode where
  | E_NO_ERROR
  | E_STORAGE_INVALID_PATH
  | E_STORAGE_PATH_ALREADY_EXISTS
  | E_STORAGE_NOT_OPEN
  | E_STORAGE_OUT_OF_BOUNDS_EXTENT
  | E_STORAGE_OUT_OF_BOUNDS_READ
  | E_STORAGE_OUT_OF_BOUNDS_WRITE
  | E_STORAGE_CRITICAL_ERROR
  | E_BTREE_KEY_NOT_FOUND
  | E_BTREE_CORRUPTED_PAGE
  | E_BUFFER_POOL_PIN_FAILED
  | E_BUFFER_POOL_UNPIN_FAILED
deriving DecidableEq

/-- Modelled from the spec (section 4.2, "All return an ErrorCode"):
`isError` is the success test used throughout btree_impl.h; a code is an
error exactly when it is not `E_NO_ERROR`. -/
def isError : ErrorCode → Bool
  | ErrorCode.E_NO_ERROR => false
  | _ => true

/-- FileStorageConfig: the persisted config record.  Field
`m_extentSizeKB : uint32` is the only mandated field (spec section 6). -/
structure FileStorageConfig where
  m_extentSizeKB : Nat
deriving DecidableEq

/-- The persistent backing file.  Byte 0 onward holds the config record
(extent 0, zero padded); the model keeps that header region as the config
value it holds (native-endian bit copy of the record round-trips to itself)
plus the total file length in bytes.  Extent payload bytes are not modelled:
no formalized property below depends on them. -/
structure FileData where
  headerConfig : FileStorageConfig
  length : Nat
deriving DecidableEq

/-- State of a `FileStorage` object (class declared in the file_storage.h
header, which is not under src/; fields follow the .cpp's uses):
`m_file` (the fstream, modelled by whether a file is open, the stream's fail
bit, and the backing file), `m_config`, `m_size` (current size in whole
extents).  `m_extentFiller` is a zero buffer of exactly `getExtentSize()`
bytes, kept in sync by `open`/`create`; it is modelled implicitly by that
length.  The fail bit matters because `if(m_file)` in the source is
fstream's operator bool, i.e. `!fail()`, not `is_open()`: a fresh stream and
a stream right after a successful close are good without an open file.  In
every reachable state the fail bit is only ever set while no file is open
(`close()` on a non-open stream, a failed `open`), so the seek-failure
tests inside `reserve`/`read`/`write` — which fail exactly when the stream
is not open or already failed — are expressed on `m_isOpen` alone. -/
structure FileStorage where
  m_isOpen : Bool
  m_failed : Bool
  m_config : FileStorageConfig
  m_size : Nat
  m_file : FileData
deriving DecidableEq

/-- FileStorage::getExtentSize (file_storage.cpp:114-116). -/
def FileStorage.getExtentSize (fs : FileStorage) : Nat :=
  fs.m_config.m_extentSizeKB * 1024

/-- FileStorage::bytesToExtent (file_storage.cpp:118-120). -/
def FileStorage.bytesToExtent (fs : FileStorage) (bytes : Nat) : Nat :=
  bytes / fs.getExtentSize

/-- FileStorage::extentToBytes (file_storage.cpp:122-124). -/
def FileStorage.extentToBytes (fs : FileStorage) (extent : Nat) : Nat :=
  extent * fs.getExtentSize

/-- FileStorage::size (file_storage.cpp:105-107). -/
def FileStorage.size (fs : FileStorage) : Nat := fs.m_size

/-- FileStorage::config (file_storage.cpp:109-111). -/
def FileStorage.config (fs : FileStorage) : FileStorageConfig := fs.m_config

/-- Modulus of the `uint32_t` type of the `numExtents` parameter. -/
def UINT32_MOD : Nat := 2 ^ 32

/-- FileStorage::reserve (file_storage.cpp:60-73).
Seeks to the end (fails only on a closed stream, giving
`E_STORAGE_CRITICAL_ERROR`), reads the current length as the returned
extent id, then seeks `extentToBytes(numExtents-1)` past the end — the
subtraction is done on the `uint32_t` parameter, hence the `% 2^32` — and
writes one extent-sized zero buffer, which zero-fills the gap.  The out
parameter `extent` is returned as `Option Nat`; `none` models the error path
on which the source never assigns it. -/
def FileStorage.reserve (fs : FileStorage) (numExtents : Nat) :
    ErrorCode × FileStorage × Option Nat :=
  if fs.m_isOpen = false then
    (ErrorCode.E_STORAGE_CRITICAL_ERROR, fs, none)
  else
    let extent := fs.bytesToExtent fs.m_file.length
    let gapExtents := (numExtents + (UINT32_MOD - 1)) % UINT32_MOD
    let newLen := fs.m_file.length + fs.extentToBytes gapExtents + fs.getExtentSize
    (ErrorCode.E_NO_ERROR,
      { fs with m_file := { fs.m_file with length := newLen },
                m_size := fs.bytesToExtent newLen },
      some extent)

/-- FileStorage::open (file_storage.cpp:17-28).  The path argument is
modelled by what the filesystem holds at that path: `none` when the stream
cannot be opened (`E_STORAGE_INVALID_PATH`), `some fd` otherwise.
`fstream::open` sets the fail bit on failure and clears the stream state on
success; on success the config is read from byte 0 and the size computed in
whole extents from the length of the file. -/
def FileStorage.openStorage (fs : FileStorage) (f : Option FileData) :
    ErrorCode × FileStorage :=
  match f with
  | none => (ErrorCode.E_STORAGE_INVALID_PATH, { fs with m_failed := true })
  | some fd =>
      (ErrorCode.E_NO_ERROR,
        { fs with m_isOpen := true,
                  m_failed := false,
                  m_config := fd.headerConfig,
                  m_file := fd,
                  m_size := fd.length / (fd.headerConfig.m_extentSizeKB * 1024) })

/-- FileStorage::create (file_storage.cpp:30-50).  `pathExists` models the
`std::ifstream(path)` probe, `pathWritable` models whether opening with
trunc succeeds.  On success: truncate, set `m_config`, reserve one extent
(the header extent; the returned error is ignored by the source), then write
the config record at byte 0 and flush. -/
def FileStorage.create (fs : FileStorage) (config : FileStorageConfig)
    (overwrite : Bool) (pathExists : Bool) (pathWritable : Bool) :
    ErrorCode × FileStorage :=
  if overwrite = false ∧ pathExists = true then
    (ErrorCode.E_STORAGE_PATH_ALREADY_EXISTS, fs)
  else if pathWritable = false then
    (ErrorCode.E_STORAGE_INVALID_PATH, { fs with m_failed := true })
  else
    let fs1 : FileStorage :=
      { fs with m_isOpen := true, m_failed := false, m_config := config,
                m_file := { headerConfig := { m_extentSizeKB := 0 }, length := 0 } }
    let fs2 := (fs1.reserve 1).2.1
    let fs3 := { fs2 with m_file := { fs2.m_file with headerConfig := config } }
    (ErrorCode.E_NO_ERROR, fs3)

/-- FileStorage::close (file_storage.cpp:52-58).  `if(m_file)` is fstream's
operator bool, which tests `!fail()`, not `is_open()`.  So whenever the fail
bit is clear the source calls `m_file.close()` and returns `E_NO_ERROR`:
with a file open this closes it and the stream stays good; with no file
open, `fstream::close` fails and sets the fail bit — but `E_NO_ERROR` is
still returned, and only a later call (now seeing a failed stream) reports
`E_STORAGE_NOT_OPEN`. -/
def FileStorage.close (fs : FileStorage) : ErrorCode × FileStorage :=
  if fs.m_failed = false then
    if fs.m_isOpen = true then
      (ErrorCode.E_NO_ERROR, { fs with m_isOpen := false })
    else (ErrorCode.E_NO_ERROR, { fs with m_failed := true })
  else (ErrorCode.E_STORAGE_NOT_OPEN, fs)

/-- FileStorage::read (file_storage.cpp:75-88).  Bounds check first
(`extent == 0 || extent >= m_size` gives `E_STORAGE_OUT_OF_BOUNDS_EXTENT`),
then `seekg` — which fails exactly on a closed stream and is also reported
as `E_STORAGE_OUT_OF_BOUNDS_EXTENT` — then a full-extent read that fails
with `E_STORAGE_OUT_OF_BOUNDS_READ` when the file is too short.  The bytes
read go to the caller's buffer and never into the `FileStorage` state. -/
def FileStorage.read (fs : FileStorage) (extent : Nat) :
    ErrorCode × FileStorage :=
  if extent = 0 ∨ fs.m_size ≤ extent then
    (ErrorCode.E_STORAGE_OUT_OF_BOUNDS_EXTENT, fs)
  else if fs.m_isOpen = false then
    (ErrorCode.E_STORAGE_OUT_OF_BOUNDS_EXTENT, fs)
  else if fs.m_file.length < (extent + 1) * fs.getExtentSize then
    (ErrorCode.E_STORAGE_OUT_OF_BOUNDS_READ, fs)
  else (ErrorCode.E_NO_ERROR, fs)

/-- FileStorage::write (file_storage.cpp:90-103).  Same bounds and seek
rules as `read`; an in-bounds write of one extent on an open stream succeeds
and can only grow the file up to the end of the written extent. -/
def FileStorage.write (fs : FileStorage) (extent : Nat) :
    ErrorCode × FileStorage :=
  if extent = 0 ∨ fs.m_size ≤ extent then
    (ErrorCode.E_STORAGE_OUT_OF_BOUNDS_EXTENT, fs)
  else if fs.m_isOpen = false then
    (ErrorCode.E_STORAGE_OUT_OF_BOUNDS_EXTENT, fs)
  else
    (ErrorCode.E_NO_ERROR,
      { fs with m_file :=
        { fs.m_file with length := max fs.m_file.length ((extent + 1) * fs.getExtentSize) } })

/-- Well-formedness of an open store: the stream is open, the extent size is
positive, and the tracked extent count agrees with the backing file length.
`open`, `create` and `reserve` all establish this. -/
def FileStorage.wfOpen (fs : FileStorage) : Prop :=
  fs.m_isOpen = true ∧ 0 < fs.getExtentSize ∧
    fs.m_size = fs.m_file.length / fs.getExtentSize

/-- A default-constructed storage (file_storage.cpp:8-11): nothing open yet. -/
def fsInit : FileStorage :=
  { m_isOpen := false, m_failed := false, m_config := { m_extentSizeKB := 0 },
    m_size := 0,
    m_file := { headerConfig := { m_extentSizeKB := 0 }, length := 0 } }

/-- The store right after `create` with a 64 KiB extent size (the store used
by the reserve-sequence scenario). -/
def demoCreated : FileStorage :=
  (fsInit.create { m_extentSizeKB := 64 } true false true).2

/-- First reserve of the scenario sequence. -/
def demoR1 : ErrorCode × FileStorage × Option Nat := demoCreated.reserve 1

/-- Second reserve of the scenario sequence. -/
def demoR2 : ErrorCode × FileStorage × Option Nat := demoR1.2.1.reserve 1

/-- Third reserve of the scenario sequence. -/
def demoR3 : ErrorCode × FileStorage × Option Nat := demoR2.2.1.reserve 4

/-- Fourth reserve of the scenario sequence. -/
def demoR4 : ErrorCode × FileStorage × Option Nat := demoR3.2.1.reserve 1

/-- Openable store used to instantiate the storage theorems: the state after
the create + four-reserve scenario (open, size 8 extents of 64 KiB). -/
def demoOpenFS : FileStorage := demoR4.2.1

/-- The same store after `close` (file persists, stream closed). -/
def closedFS : FileStorage := (demoOpenFS.close).2

/-- File length after the zero-fill write of `reserve`: the old end, plus
the gap seeked past the end, plus the one extent written. -/
def reservedLen (fs : FileStorage) (numExtents : Nat) : Nat :=
  fs.m_file.length + fs.extentToBytes ((numExtents + (UINT32_MOD - 1)) % UINT32_MOD) +
    fs.getExtentSize

/-- Unfolding of `reserve` on an open stream: the seek to the end succeeds
and the call always takes the success path. -/
theorem reserve_eq_of_isOpen (fs : FileStorage) (n : Nat) (h : fs.m_isOpen = true) :
    fs.reserve n =
      (ErrorCode.E_NO_ERROR,
       { fs with
          m_file := { fs.m_file with length := reservedLen fs n },
          m_size := fs.bytesToExtent (reservedLen fs n) },
       some (fs.bytesToExtent fs.m_file.length)) := by
  unfold FileStorage.reserve reservedLen
  rw [h]
  rfl

/-- C1 (amended): for every open well-formed FileStorage and every number of
extents n with 1 ≤ n < 2^32 (the parameter is a uint32; with n = 0 the
unsigned n−1 wraps), reserve(n) succeeds, sets the out parameter to the
store's size in whole extents before the call, and increases size() by
exactly n; and after create on a 64 KiB-extent store the sequence
reserve(1), reserve(1), reserve(4), reserve(1) returns extent ids 1, 2, 3, 7
and leaves size() equal to 8. -/
theorem C1_reserve_amended :
    (∀ (fs : FileStorage) (n : Nat), fs.wfOpen → 1 ≤ n → n < UINT32_MOD →
      (fs.reserve n).1 = ErrorCode.E_NO_ERROR ∧
      (fs.reserve n).2.2 = some fs.size ∧
      (fs.reserve n).2.1.size = fs.size + n) ∧
    (demoR1.2.2 = some 1 ∧ demoR2.2.2 = some 2 ∧ demoR3.2.2 = some 3 ∧
      demoR4.2.2 = some 7 ∧ demoR4.2.1.size = 8) := by
  constructor
  · intro fs n hwf h1 hlt
    obtain ⟨hopen, hext, hsize⟩ := hwf
    have hgap : (n + (UINT32_MOD - 1)) % UINT32_MOD = n - 1 := by
      have hrw : n + (UINT32_MOD - 1) = (n - 1) + 1 * UINT32_MOD := by
        unfold UINT32_MOD at *
        omega
      rw [hrw, Nat.add_mul_mod_self_right]
      exact Nat.mod_eq_of_lt (by omega)
    have hmul : (n - 1) * fs.getExtentSize + fs.getExtentSize = n * fs.getExtentSize := by
      cases n with
      | zero => omega
      | succ m => simp [Nat.succ_mul]
    rw [reserve_eq_of_isOpen fs n hopen]
    refine ⟨rfl, ?_, ?_⟩
    · show some (fs.bytesToExtent fs.m_file.length) = some fs.m_size
      rw [hsize]
      rfl
    · show fs.bytesToExtent (reservedLen fs n) = fs.m_size + n
      unfold reservedLen
      rw [hgap]
      unfold FileStorage.bytesToExtent FileStorage.extentToBytes
      rw [Nat.add_assoc, hmul, Nat.add_mul_div_right _ _ hext, hsize]
  · exact ⟨rfl, rfl, rfl, rfl, rfl⟩

/-- C1 witness: the amended reserve theorem applied to the concrete store
after create, with n = 1. -/
theorem C1_reserve_amended_witness :
    demoCreated.wfOpen ∧
    ((demoCreated.reserve 1).1 = ErrorCode.E_NO_ERROR ∧
     (demoCreated.reserve 1).2.2 = some demoCreated.size ∧
     (demoCreated.reserve 1).2.1.size = demoCreated.size + 1) :=
  ⟨⟨rfl, by decide, rfl⟩,
    C1_reserve_amended.1 demoCreated 1 ⟨rfl, by decide, rfl⟩ (by decide) (by decide)⟩

/-- C1 counterexample: the claim quantifies over every n, but reserve(0) on
the freshly created store (size 1) leaves size() = 2^32 + 1, not 1 + 0: the
uint32 expression numExtents−1 wraps to 4294967295 and the zero-fill write
appends 2^32 extents. -/
theorem C1_reserve_zero_counterexample :
    (demoCreated.reserve 0).2.1.size = 4294967297 ∧
    demoCreated.size + 0 = 1 ∧ (4294967297 : Nat) ≠ 1 :=
  ⟨rfl, rfl, by decide⟩

/-- C2: for every open FileStorage and every extentId, read and write return
E_STORAGE_OUT_OF_BOUNDS_EXTENT exactly when extentId = 0 or
extentId ≥ size(); in particular extent 0 can never be read or written
through these operations. -/
theorem C2_read_write_bounds :
    ∀ (fs : FileStorage) (extent : Nat), fs.m_isOpen = true →
    (((fs.read extent).1 = ErrorCode.E_STORAGE_OUT_OF_BOUNDS_EXTENT) ↔
      (extent = 0 ∨ fs.size ≤ extent)) ∧
    (((fs.write extent).1 = ErrorCode.E_STORAGE_OUT_OF_BOUNDS_EXTENT) ↔
      (extent = 0 ∨ fs.size ≤ extent)) := by
  intro fs extent h
  unfold FileStorage.read FileStorage.write FileStorage.size
  rw [h]
  constructor <;> split_ifs <;> simp_all

/-- C2 witness: the bounds theorem applied to the concrete open store and
extent 0 (the header extent, always rejected). -/
theorem C2_read_write_bounds_witness :
    demoOpenFS.m_isOpen = true ∧
    ((((demoOpenFS.read 0).1 = ErrorCode.E_STORAGE_OUT_OF_BOUNDS_EXTENT) ↔
       (0 = 0 ∨ demoOpenFS.size ≤ 0)) ∧
     (((demoOpenFS.write 0).1 = ErrorCode.E_STORAGE_OUT_OF_BOUNDS_EXTENT) ↔
       (0 = 0 ∨ demoOpenFS.size ≤ 0))) :=
  ⟨rfl, C2_read_write_bounds demoOpenFS 0 rfl⟩

/-- C8: after a successful create(path, config, overwrite) followed by
close() and open(path), config() returns the configuration written at
creation; in particular creating with extentSizeKB = 4 and reopening yields
config().m_extentSizeKB = 4. -/
theorem C8_config_roundtrip :
    (∀ (fs : FileStorage) (cfg : FileStorageConfig) (ow pe pw : Bool),
      (fs.create cfg ow pe pw).1 = ErrorCode.E_NO_ERROR →
      ((((fs.create cfg ow pe pw).2.close).2.openStorage
          (some ((fs.create cfg ow pe pw).2.close).2.m_file)).1 = ErrorCode.E_NO_ERROR ∧
       (((fs.create cfg ow pe pw).2.close).2.openStorage
          (some ((fs.create cfg ow pe pw).2.close).2.m_file)).2.config = cfg)) ∧
    ((((fsInit.create { m_extentSizeKB := 4 } true false true).2.close).2.openStorage
        (some ((fsInit.create { m_extentSizeKB := 4 } true false true).2.close).2.m_file)).2.config.m_extentSizeKB
      = 4) := by
  constructor
  · intro fs cfg ow pe pw hok
    cases ow <;> cases pe <;> cases pw <;>
      simp_all [FileStorage.create, FileStorage.close, FileStorage.openStorage,
        FileStorage.config, FileStorage.reserve]
  · rfl

/-- C8 witness: the round-trip theorem applied to a fresh store created with
extentSizeKB = 4. -/
theorem C8_config_roundtrip_witness :
    (fsInit.create { m_extentSizeKB := 4 } true false true).1 = ErrorCode.E_NO_ERROR ∧
    ((((fsInit.create { m_extentSizeKB := 4 } true false true).2.close).2.openStorage
        (some ((fsInit.create { m_extentSizeKB := 4 } true false true).2.close).2.m_file)).1
      = ErrorCode.E_NO_ERROR ∧
     (((fsInit.create { m_extentSizeKB := 4 } true false true).2.close).2.openStorage
        (some ((fsInit.create { m_extentSizeKB := 4 } true false true).2.close).2.m_file)).2.config
      = { m_extentSizeKB := 4 }) :=
  ⟨rfl, C8_config_roundtrip.1 fsInit { m_extentSizeKB := 4 } true false true rfl⟩

/-- C9 (amended): close() returns E_STORAGE_NOT_OPEN exactly when the
stream's fail bit is set — `if(m_file)` tests `!fail()`, not `is_open()` —
so on a good stream it returns E_NO_ERROR even when no file is open: with a
file open, close() closes it (and the store can be opened again); with no
file open, close() merely sets the fail bit and only the next call reports
E_STORAGE_NOT_OPEN.  Read and write on a store with no open file return
E_STORAGE_OUT_OF_BOUNDS_EXTENT (the bounds check precedes any stream check
and a failed seek is also reported as out-of-bounds), never
E_STORAGE_NOT_OPEN. -/
theorem C9_close_amended :
    (∀ fs : FileStorage,
      (((fs.close).1 = ErrorCode.E_STORAGE_NOT_OPEN) ↔ fs.m_failed = true) ∧
      (fs.m_failed = false → fs.m_isOpen = true →
        (fs.close).1 = ErrorCode.E_NO_ERROR ∧ (fs.close).2.m_isOpen = false ∧
        ((fs.close).2.openStorage (some (fs.close).2.m_file)).1 = ErrorCode.E_NO_ERROR) ∧
      (fs.m_failed = false → fs.m_isOpen = false →
        (fs.close).1 = ErrorCode.E_NO_ERROR ∧ (fs.close).2.m_failed = true ∧
        ((fs.close).2.close).1 = ErrorCode.E_STORAGE_NOT_OPEN)) ∧
    (∀ (fs : FileStorage) (extent : Nat), fs.m_isOpen = false →
      (fs.read extent).1 = ErrorCode.E_STORAGE_OUT_OF_BOUNDS_EXTENT ∧
      (fs.write extent).1 = ErrorCode.E_STORAGE_OUT_OF_BOUNDS_EXTENT ∧
      (fs.read extent).1 ≠ ErrorCode.E_STORAGE_NOT_OPEN ∧
      (fs.write extent).1 ≠ ErrorCode.E_STORAGE_NOT_OPEN) := by
  constructor
  · intro fs
    refine ⟨?_, ?_, ?_⟩
    · unfold FileStorage.close
      split_ifs <;> simp_all
    · intro hf ho
      unfold FileStorage.close FileStorage.openStorage
      rw [hf, ho]
      simp
    · intro hf ho
      unfold FileStorage.close
      rw [hf, ho]
      simp
  · intro fs extent h
    unfold FileStorage.read FileStorage.write
    rw [h]
    split_ifs <;> simp_all

/-- C9 witness: the amended close theorem applied to the concrete open,
good store. -/
theorem C9_close_amended_witness :
    demoOpenFS.m_failed = false ∧ demoOpenFS.m_isOpen = true ∧
    ((demoOpenFS.close).1 = ErrorCode.E_NO_ERROR ∧
     (demoOpenFS.close).2.m_isOpen = false ∧
     ((demoOpenFS.close).2.openStorage (some (demoOpenFS.close).2.m_file)).1
       = ErrorCode.E_NO_ERROR) :=
  ⟨rfl, rfl, (C9_close_amended.1 demoOpenFS).2.1 rfl rfl⟩

/-- C9 counterexample: on a fresh store, and on a store whose file was just
successfully closed, no file is open yet close() returns E_NO_ERROR — not
E_STORAGE_NOT_OPEN as the claim states — because `if(m_file)` only tests the
fail bit; and read/write on a store with no open file return
E_STORAGE_OUT_OF_BOUNDS_EXTENT, not E_STORAGE_NOT_OPEN, because the
source's read/write contain no not-open check at all. -/
theorem C9_read_closed_counterexample :
    fsInit.m_isOpen = false ∧
    (fsInit.close).1 = ErrorCode.E_NO_ERROR ∧
    (fsInit.close).1 ≠ ErrorCode.E_STORAGE_NOT_OPEN ∧
    closedFS.m_isOpen = false ∧
    (closedFS.close).1 = ErrorCode.E_NO_ERROR ∧
    (closedFS.close).1 ≠ ErrorCode.E_STORAGE_NOT_OPEN ∧
    (closedFS.read 1).1 = ErrorCode.E_STORAGE_OUT_OF_BOUNDS_EXTENT ∧
    (closedFS.write 1).1 = ErrorCode.E_STORAGE_OUT_OF_BOUNDS_EXTENT ∧
    (closedFS.read 1).1 ≠ ErrorCode.E_STORAGE_NOT_OPEN ∧
    (closedFS.write 1).1 ≠ ErrorCode.E_STORAGE_NOT_OPEN :=
  ⟨rfl, rfl, by decide, rfl, rfl, by decide, rfl, rfl, by decide, by decide⟩

/-- C10: whether a read or write call succeeds or returns an error, the
values subsequently returned by size() and config() are unchanged by the
call. -/
theorem C10_read_write_frame :
    ∀ (fs : FileStorage) (extent : Nat),
    (fs.read extent).2.size = fs.size ∧ (fs.read extent).2.config = fs.config ∧
    (fs.write extent).2.size = fs.size ∧ (fs.write extent).2.config = fs.config := by
  intro fs extent
  unfold FileStorage.read FileStorage.write FileStorage.size FileStorage.config
  refine ⟨?_, ?_, ?_, ?_⟩ <;> split_ifs <;> rfl

/-- BTNodeType (btree_impl.h:17-20). -/
inductive BTNodeType where
  | E_INTERNAL
  | E_LEAF
deriving DecidableEq

/-- Byte size of the on-page header struct BTNodePageHeader
(btree_impl.h:22-59) under the usual C++ layout: uint8 type (plus 3 padding
bytes), two int32 counters, 4 padding bytes, then four 8-byte size_t
offsets: 48 bytes. -/
def sizeofBTNodePageHeader : Nat := 48

/-- Byte size of size_t on the target platform (64-bit). -/
def sizeofSizeT : Nat := 8

/-- Byte size of pageId_t (a 64-bit page id). -/
def sizeofPageIdT : Nat := 8

/-- Modelled from the spec (section 3): the sentinel page id denoting "no
such page".  Its numeric value is defined in a header outside src/; every
use in btree_impl.h only compares against it, so any fixed value works, and
the all-ones 64-bit pattern is used here. -/
def INVALID_PAGE_ID : Nat := 2 ^ 64 - 1

/-- BTNodePageHeader (btree_impl.h:22-59).  The two int32 counters are
nonnegative in every reachable state and are modelled as Nat. -/
structure BTNodePageHeader where
  m_type : BTNodeType
  m_maxNumElements : Nat
  m_numElements : Nat
  m_keySize : Nat
  m_keyStart : Nat
  m_elementSize : Nat
  m_elementStart : Nat
deriving DecidableEq

/-- The header-layout computation performed by btree_create_node
(btree_impl.h:172-191) for page size P, sizeof(K) = kSize and
sizeof(V) = vSize.  Note that the source subtracts, divides and aligns by
`sizeof(sizeOfElement)` — the size of the *variable* `sizeOfElement`, i.e.
sizeof(size_t) = 8 — and not by the element size stored in that variable.
The int32 arithmetic is modelled in Nat (callers keep every quantity
nonnegative and far below 2^31). -/
def btree_create_header (pageSize kSize vSize : Nat) (type : BTNodeType) :
    BTNodePageHeader :=
  let sizeOfElement := if type = BTNodeType.E_INTERNAL then sizeofPageIdT else vSize
  let availableSize := pageSize - sizeofBTNodePageHeader - (kSize + sizeofSizeT)
  let maxNumElements := availableSize / (kSize + sizeofSizeT)
  let keyStart := max sizeofBTNodePageHeader kSize
  let keyEnd := keyStart + kSize * maxNumElements
  let elementStart := keyEnd - keyEnd % sizeofSizeT +
    sizeofSizeT * (if keyEnd % sizeofSizeT ≠ 0 then 1 else 0)
  { m_type := type, m_maxNumElements := maxNumElements, m_numElements := 0,
    m_keySize := kSize, m_keyStart := keyStart, m_elementSize := sizeOfElement,
    m_elementStart := elementStart }

/-- The node layout exactly as the spec words it (section 4.3, items 1-5):
keyStart = max(sizeof(header), k); maxNumElements =
(P - sizeof(header) - (k + e)) / (k + e); elementStart = keyStart +
k * maxNumElements rounded up to a multiple of e.  Returns
(keyStart, maxNumElements, elementStart); kept separate from
`btree_create_header` so the two can be compared. -/
def btree_layout_spec (pageSize kSize e : Nat) : Nat × Nat × Nat :=
  let keyStart := max sizeofBTNodePageHeader kSize
  let maxNumElements := (pageSize - sizeofBTNodePageHeader - (kSize + e)) / (kSize + e)
  let keyEnd := keyStart + kSize * maxNumElements
  let elementStart := ((keyEnd + e - 1) / e) * e
  (keyStart, maxNumElements, elementStart)

/-- One page of the buffer pool, viewed through the node layout: the header
at offset 0, the key array, and the element array.  The element region of a
page is a single byte range; `children` is its view as pageId_t slots (used
when the header says INTERNAL) and `values` its view as V slots (used when
it says LEAF) — operations only ever touch the view matching `m_type`. -/
structure Page (K V : Type) where
  header : BTNodePageHeader
  keys : List K
  children : List Nat
  values : List V
deriving DecidableEq

/-- In-memory node handle BTNode (btree_impl.h:67-122): the buffer handler's
page id, the header and array views of the pinned buffer, the leaf-only
in-memory `m_next` field of the union, and the dirty flag. -/
structure BTNode (K V : Type) where
  m_pId : Nat
  header : BTNodePageHeader
  keys : List K
  children : List Nat
  values : List V
  m_next : Nat
  m_dirty : Bool
deriving DecidableEq

/-- The buffer pool the tree code consumes (spec section 4.2; the
implementation is an external collaborator).  `pages` maps page ids to
pinned-or-pinnable page contents; `freshPages` are the pages `alloc` will
hand out next, with whatever stale bytes their buffers hold; `pins` is the
multiset of currently held pins (one entry per pin); `dirtyList` records
setPageDirty calls. -/
structure BufferPool (K V : Type) where
  m_pageSize : Nat
  pages : List (Nat × Page K V)
  freshPages : List (Nat × Page K V)
  pins : List Nat
  dirtyList : List Nat
deriving DecidableEq

/-- Modelled from the spec (section 4.2): pin(pageId) pins an existing page
and fills the handler; it fails when the page cannot be produced.  Returns
the pool with one more pin and the page contents. -/
def BufferPool.pin {K V : Type} (bp : BufferPool K V) (pId : Nat) :
    Option (BufferPool K V × Page K V) :=
  match bp.pages.lookup pId with
  | none => none
  | some pg => some ({ bp with pins := pId :: bp.pins }, pg)

/-- Modelled from the spec (section 4.2): unpin drops one pin. -/
def BufferPool.unpin {K V : Type} (bp : BufferPool K V) (pId : Nat) :
    ErrorCode × BufferPool K V :=
  if pId ∈ bp.pins then (ErrorCode.E_NO_ERROR, { bp with pins := bp.pins.erase pId })
  else (ErrorCode.E_BUFFER_POOL_UNPIN_FAILED, bp)

/-- Modelled from the spec (section 4.2): setPageDirty marks a still-pinned
page dirty; flushing is the pool's responsibility. -/
def BufferPool.setPageDirty {K V : Type} (bp : BufferPool K V) (pId : Nat) :
    ErrorCode × BufferPool K V :=
  (ErrorCode.E_NO_ERROR, { bp with dirtyList := pId :: bp.dirtyList })

/-- Modelled from the spec (section 4.2): alloc allocates a new page (via
reserve underneath), pins it and returns the handler.  The buffer handed out
still contains whatever bytes it previously held. -/
def BufferPool.alloc {K V : Type} (bp : BufferPool K V) :
    Option (BufferPool K V × Nat × Page K V) :=
  match bp.freshPages with
  | [] => none
  | (pId, pg) :: rest =>
      some ({ bp with freshPages := rest, pages := (pId, pg) :: bp.pages,
                      pins := pId :: bp.pins }, pId, pg)

/-- Store back the contents of a pinned buffer (mutations through the
pointers of a BTNode are writes into the pooled page). -/
def BufferPool.updatePage {K V : Type} (bp : BufferPool K V) (pId : Nat)
    (pg : Page K V) : BufferPool K V :=
  { bp with pages := (pId, pg) :: bp.pages }

/-- The child-slot initialization loop of btree_create_node
(btree_impl.h:210-212): `for(i = 0; i < m_numElements; ++i)
p_children[i] = INVALID_PAGE_ID` — it overwrites exactly the first
`count` slots and leaves the rest of the buffer as it was. -/
def btree_init_children : Nat → List Nat → List Nat
  | 0, cs => cs
  | _ + 1, [] => []
  | count + 1, _ :: cs => INVALID_PAGE_ID :: btree_init_children count cs

/-- btree_create_node (btree_impl.h:162-221): alloc a page, write the header
computed by `btree_create_header`, memset the key region (and, for a leaf,
the value region) to zero bytes, run the child-slot loop (which is bounded
by m_numElements, set to 0 two lines earlier), set the leaf's in-memory
`m_next` to INVALID_PAGE_ID, clear the dirty flag.  `kZero`/`vZero` are the
all-zero-bytes patterns of K and V produced by memset. -/
def btree_create_node {K V : Type} (kSize vSize : Nat) (kZero : K) (vZero : V)
    (bp : BufferPool K V) (type : BTNodeType) :
    ErrorCode × BufferPool K V × Option (BTNode K V) :=
  match bp.alloc with
  | none => (ErrorCode.E_BUFFER_POOL_PIN_FAILED, bp, none)
  | some (bp1, pId, pg) =>
    let header := btree_create_header bp.m_pageSize kSize vSize type
    let keys := List.replicate header.m_maxNumElements kZero
    let children :=
      if type = BTNodeType.E_INTERNAL then btree_init_children header.m_numElements pg.children
      else pg.children
    let values :=
      if type = BTNodeType.E_LEAF then List.replicate header.m_maxNumElements vZero
      else pg.values
    let nextField := if type = BTNodeType.E_LEAF then INVALID_PAGE_ID else 0
    let node : BTNode K V :=
      { m_pId := pId, header := header, keys := keys, children := children,
        values := values, m_next := nextField, m_dirty := false }
    (ErrorCode.E_NO_ERROR,
      bp1.updatePage pId { header := header, keys := keys, children := children, values := values },
      some node)

/-- btree_load_node (btree_impl.h:265-304): pin the page, re-read the header
from it, check keySize/elementSize against the caller's K and V — on
mismatch unpin and return E_BTREE_CORRUPTED_PAGE — otherwise set up the
array views and clear the dirty flag.  The source leaves the leaf's
in-memory m_next unassigned on load; the model fills 0, and no operation
formalized here reads it. -/
def btree_load_node {K V : Type} (kSize vSize : Nat) (bp : BufferPool K V)
    (pId : Nat) : ErrorCode × BufferPool K V × Option (BTNode K V) :=
  match bp.pin pId with
  | none => (ErrorCode.E_BUFFER_POOL_PIN_FAILED, bp, none)
  | some (bp1, pg) =>
    let sizeOfElement :=
      if pg.header.m_type = BTNodeType.E_INTERNAL then sizeofPageIdT else vSize
    if pg.header.m_keySize ≠ kSize ∨ pg.header.m_elementSize ≠ sizeOfElement then
      (ErrorCode.E_BTREE_CORRUPTED_PAGE, (bp1.unpin pId).2, none)
    else
      (ErrorCode.E_NO_ERROR, bp1,
        some { m_pId := pId, header := pg.header, keys := pg.keys,
               children := pg.children, values := pg.values, m_next := 0,
               m_dirty := false })

/-- btree_unload_node (btree_impl.h:346-362): if the node is dirty, tell the
pool (returning early on error), then unpin. -/
def btree_unload_node {K V : Type} (bp : BufferPool K V) (node : BTNode K V) :
    ErrorCode × BufferPool K V :=
  if node.m_dirty then
    let r := bp.setPageDirty node.m_pId
    if isError r.1 then (r.1, r.2)
    else r.2.unpin node.m_pId
  else bp.unpin node.m_pId

/-- The scan loop of btree_next_internal (btree_impl.h:387-391), written
with the remaining iteration budget `steps = (maxNumElements-1) - i` made
explicit: while `i < maxNumElements-1` and `children[i+1] != INVALID_PAGE_ID`
and `key >= keys[i]`, increment i; return the first i at which the
condition fails. -/
def btree_next_internal_go {K : Type} [LinearOrder K] [Inhabited K]
    (children : List Nat) (keys : List K) (key : K) : Nat → Nat → Nat
  | i, 0 => i
  | i, steps + 1 =>
    if children.getD (i + 1) 0 ≠ INVALID_PAGE_ID ∧ keys.getD i default ≤ key then
      btree_next_internal_go children keys key (i + 1) steps
    else i

/-- btree_next_internal (btree_impl.h:375-394): 0 when numElements ≤ 1,
otherwise the linear scan above starting at i = 0. -/
def btree_next_internal {K V : Type} [LinearOrder K] [Inhabited K]
    (node : BTNode K V) (key : K) : Nat :=
  if node.header.m_numElements ≤ 1 then 0
  else btree_next_internal_go node.children node.keys key 0
    (node.header.m_maxNumElements - 1)

/-- The scan loop of btree_next_leaf (btree_impl.h:417), with the remaining
budget `steps = numElements - i` explicit: while `i < numElements` and
`key > keys[i]`, increment i. -/
def btree_next_leaf_go {K : Type} [LinearOrder K] [Inhabited K]
    (keys : List K) (key : K) : Nat → Nat → Nat
  | i, 0 => i
  | i, steps + 1 =>
    if keys.getD i default < key then btree_next_leaf_go keys key (i + 1) steps
    else i

/-- btree_next_leaf (btree_impl.h:408-419). -/
def btree_next_leaf {K V : Type} [LinearOrder K] [Inhabited K]
    (node : BTNode K V) (key : K) : Nat :=
  btree_next_leaf_go node.keys key 0 node.header.m_numElements

/-- btree_get (btree_impl.h:432-462), with a fuel bound on the recursion
depth (the C++ recursion is bounded by the tree height; out of fuel the
model reports a miss without touching the pool).  The source body reads the
struct members through their intended names (`p_children`, `p_values`; the
literal text `m_children`/`m_leafs` does not name any member of BTNode and
the spec directs implementers to treat those mismatches as slips, section 9).
On an internal node: compute the child index, give up with
E_BTREE_KEY_NOT_FOUND on an INVALID_PAGE_ID child, otherwise load the
child, recurse, unload whatever the outcome, and propagate the recursion's
result.  On a leaf: return values[i] for i = next_leaf exactly when
i < numElements and keys[i] == key. -/
def btree_get {K V : Type} [LinearOrder K] [Inhabited K] [Inhabited V]
    (kSize vSize : Nat) :
    Nat → BufferPool K V → BTNode K V → K → ErrorCode × BufferPool K V × Option V
  | 0, bp, _, _ => (ErrorCode.E_BTREE_KEY_NOT_FOUND, bp, none)
  | fuel + 1, bp, node, key =>
    match node.header.m_type with
    | BTNodeType.E_INTERNAL =>
      let child_idx := btree_next_internal node key
      let childPage := node.children.getD child_idx 0
      if childPage ≠ INVALID_PAGE_ID then
        let l := btree_load_node kSize vSize bp childPage
        if isError l.1 then (l.1, l.2.1, none)
        else
          match l.2.2 with
          | some child =>
            let r := btree_get kSize vSize fuel l.2.1 child key
            let u := btree_unload_node r.2.1 child
            (r.1, u.2, r.2.2)
          | none => (ErrorCode.E_BTREE_KEY_NOT_FOUND, l.2.1, none)
      else (ErrorCode.E_BTREE_KEY_NOT_FOUND, bp, none)
    | BTNodeType.E_LEAF =>
      let i := btree_next_leaf node key
      if i < node.header.m_numElements ∧ node.keys.getD i default = key then
        (ErrorCode.E_NO_ERROR, bp, some (node.values.getD i default))
      else (ErrorCode.E_BTREE_KEY_NOT_FOUND, bp, none)

/-- Characterization of the internal scan loop: starting at `i` with `steps`
iterations left, it returns the first index at which the loop condition
fails (or `i + steps` when it never does), so the condition holds at every
index it stepped over and fails at the returned index unless the budget ran
out. -/
theorem btree_next_internal_go_spec {K : Type} [LinearOrder K] [Inhabited K]
    (children : List Nat) (keys : List K) (key : K) :
    ∀ (steps i : Nat),
      i ≤ btree_next_internal_go children keys key i steps ∧
      btree_next_internal_go children keys key i steps ≤ i + steps ∧
      (∀ j, i ≤ j → j < btree_next_internal_go children keys key i steps →
        (children.getD (j + 1) 0 ≠ INVALID_PAGE_ID ∧ keys.getD j default ≤ key)) ∧
      (btree_next_internal_go children keys key i steps < i + steps →
        ¬(children.getD (btree_next_internal_go children keys key i steps + 1) 0 ≠ INVALID_PAGE_ID ∧
          keys.getD (btree_next_internal_go children keys key i steps) default ≤ key)) := by
  intro steps
  induction steps with
  | zero =>
    intro i
    simp only [btree_next_internal_go]
    exact ⟨Nat.le_refl i, by omega, fun j h1 h2 => absurd h2 (by omega), by omega⟩
  | succ s ih =>
    intro i
    simp only [btree_next_internal_go]
    split_ifs with hc
    · obtain ⟨ha, hb, hcond, hfail⟩ := ih (i + 1)
      refine ⟨by omega, by omega, ?_, fun hlt => hfail (by omega)⟩
      intro j h1 h2
      rcases Nat.eq_or_lt_of_le h1 with heq | hlt
      · rw [← heq]
        exact hc
      · exact hcond j hlt h2
    · exact ⟨Nat.le_refl i, by omega, fun j h1 h2 => absurd h2 (by omega), fun _ => hc⟩

/-- Characterization of the leaf scan loop: starting at `i` with `steps`
iterations left, every index stepped over holds a key strictly below the
probe and the returned index does not, unless the budget ran out. -/
theorem btree_next_leaf_go_spec {K : Type} [LinearOrder K] [Inhabited K]
    (keys : List K) (key : K) :
    ∀ (steps i : Nat),
      i ≤ btree_next_leaf_go keys key i steps ∧
      btree_next_leaf_go keys key i steps ≤ i + steps ∧
      (∀ j, i ≤ j → j < btree_next_leaf_go keys key i steps →
        keys.getD j default < key) ∧
      (btree_next_leaf_go keys key i steps < i + steps →
        ¬ keys.getD (btree_next_leaf_go keys key i steps) default < key) := by
  intro steps
  induction steps with
  | zero =>
    intro i
    simp only [btree_next_leaf_go]
    exact ⟨Nat.le_refl i, by omega, fun j h1 h2 => absurd h2 (by omega), by omega⟩
  | succ s ih =>
    intro i
    simp only [btree_next_leaf_go]
    split_ifs with hc
    · obtain ⟨ha, hb, hcond, hfail⟩ := ih (i + 1)
      refine ⟨by omega, by omega, ?_, fun hlt => hfail (by omega)⟩
      intro j h1 h2
      rcases Nat.eq_or_lt_of_le h1 with heq | hlt
      · rw [← heq]
        exact hc
      · exact hcond j hlt h2
    · exact ⟨Nat.le_refl i, by omega, fun j h1 h2 => absurd h2 (by omega), fun _ => hc⟩

/-- C4 (amended): btree_next_internal(node, key) returns 0 when
numElements ≤ 1, and otherwise returns the first index r at which the scan
condition fails: r ≤ maxNumElements − 1, every index j < r satisfies
child[j+1] ≠ INVALID_PAGE_ID and key ≥ keys[j], and if r < maxNumElements − 1
then the condition fails at r itself (the scan stops at the first failing
index, not at the largest satisfying one). -/
theorem C4_next_internal_amended {K V : Type} [LinearOrder K] [Inhabited K]
    (node : BTNode K V) (key : K) :
    (node.header.m_numElements ≤ 1 → btree_next_internal node key = 0) ∧
    (2 ≤ node.header.m_numElements →
      btree_next_internal node key ≤ node.header.m_maxNumElements - 1 ∧
      (∀ j, j < btree_next_internal node key →
        (node.children.getD (j + 1) 0 ≠ INVALID_PAGE_ID ∧ node.keys.getD j default ≤ key)) ∧
      (btree_next_internal node key < node.header.m_maxNumElements - 1 →
        ¬(node.children.getD (btree_next_internal node key + 1) 0 ≠ INVALID_PAGE_ID ∧
          node.keys.getD (btree_next_internal node key) default ≤ key))) := by
  constructor
  · intro h
    unfold btree_next_internal
    rw [if_pos h]
  · intro h
    have hn : ¬ node.header.m_numElements ≤ 1 := by omega
    unfold btree_next_internal
    rw [if_neg hn]
    obtain ⟨ha, hb, hcond, hfail⟩ :=
      btree_next_internal_go_spec node.children node.keys key
        (node.header.m_maxNumElements - 1) 0
    exact ⟨by omega, fun j hj => hcond j (by omega) hj, fun hlt => hfail (by omega)⟩

/-- The claim's own description of next_internal — return 0 when
numElements ≤ 1, otherwise "the largest i in [0, maxNumElements − 2] such
that child[i+1] ≠ INVALID_PAGE_ID and key ≥ keys[i]" — as a function, for
comparison against the source's scan. -/
def next_internal_claim {K V : Type} [LinearOrder K] [Inhabited K]
    (node : BTNode K V) (key : K) : Nat :=
  if node.header.m_numElements ≤ 1 then 0
  else Nat.findGreatest
    (fun i => node.children.getD (i + 1) 0 ≠ INVALID_PAGE_ID ∧ node.keys.getD i default ≤ key)
    (node.header.m_maxNumElements - 2)

/-- An internal node with two live children and separator keys 5, 20, used
to separate the source scan from the claim's description. -/
def c4node : BTNode Nat Nat :=
  { m_pId := 1,
    header := { m_type := BTNodeType.E_INTERNAL, m_maxNumElements := 4, m_numElements := 2,
                m_keySize := 8, m_keyStart := 48, m_elementSize := 8, m_elementStart := 80 },
    keys := [5, 20, 0, 0], children := [10, 11, INVALID_PAGE_ID, INVALID_PAGE_ID],
    values := [], m_next := 0, m_dirty := false }

/-- C4 counterexample: on `c4node` with key 10 the largest index satisfying
the claim's condition is 0 (index 1 fails because child[2] is
INVALID_PAGE_ID), yet btree_next_internal returns 1 — the scan returns the
first failing index, one past the satisfying prefix. -/
theorem C4_next_internal_counterexample :
    2 ≤ c4node.header.m_numElements ∧
    next_internal_claim c4node 10 = 0 ∧
    btree_next_internal c4node 10 = 1 ∧ (1 : Nat) ≠ 0 := by
  refine ⟨by decide, by decide, by decide, by decide⟩

/-- C4 witness: the amended characterization applied to `c4node` with
key 10. -/
theorem C4_next_internal_amended_witness :
    2 ≤ c4node.header.m_numElements ∧
    (btree_next_internal c4node 10 ≤ c4node.header.m_maxNumElements - 1 ∧
     (∀ j, j < btree_next_internal c4node 10 →
       (c4node.children.getD (j + 1) 0 ≠ INVALID_PAGE_ID ∧
        c4node.keys.getD j default ≤ 10)) ∧
     (btree_next_internal c4node 10 < c4node.header.m_maxNumElements - 1 →
       ¬(c4node.children.getD (btree_next_internal c4node 10 + 1) 0 ≠ INVALID_PAGE_ID ∧
         c4node.keys.getD (btree_next_internal c4node 10) default ≤ 10))) :=
  ⟨by decide, (C4_next_internal_amended c4node 10).2 (by decide)⟩

/-- C3 (code bug): at page size 4096 with an 8-byte key and a 16-byte leaf
value, btree_create_node computes maxNumElements = 252 and
elementStart = 2064, because it subtracts, divides and aligns by
sizeof(sizeOfElement) = sizeof(size_t) = 8 instead of the element size held
in that variable; the claim's formula (the spec layout) gives
maxNumElements = 167 and elementStart = 1392, and with the code's numbers
the element array ends at byte 6096, beyond the 4096-byte page. -/
theorem C3_layout_divergence :
    (btree_create_header 4096 8 16 BTNodeType.E_LEAF).m_maxNumElements = 252 ∧
    (btree_create_header 4096 8 16 BTNodeType.E_LEAF).m_keyStart = 48 ∧
    (btree_create_header 4096 8 16 BTNodeType.E_LEAF).m_elementStart = 2064 ∧
    btree_layout_spec 4096 8 16 = (48, 167, 1392) ∧
    (252 : Nat) ≠ 167 ∧
    4096 < (btree_create_header 4096 8 16 BTNodeType.E_LEAF).m_elementStart +
      16 * (btree_create_header 4096 8 16 BTNodeType.E_LEAF).m_maxNumElements :=
  ⟨rfl, rfl, rfl, rfl, by decide, by decide⟩

/-- A stale page as alloc hands it out: key, child and value regions full of
non-zero garbage bytes (5s, 7s and 9s over the 252 slots the 4096-byte
layout yields for 8-byte keys and elements). -/
def garbagePage : Page Nat Nat :=
  { header := { m_type := BTNodeType.E_LEAF, m_maxNumElements := 0, m_numElements := 0,
                m_keySize := 0, m_keyStart := 0, m_elementSize := 0, m_elementStart := 0 },
    keys := List.replicate 252 5, children := List.replicate 252 7,
    values := List.replicate 252 9 }

/-- A pool whose next two allocations hand out stale buffers. -/
def demoPoolC6 : BufferPool Nat Nat :=
  { m_pageSize := 4096, pages := [], freshPages := [(1, garbagePage), (2, garbagePage)],
    pins := [], dirtyList := [] }

/-- C6 (code bug): after a successful btree_create_node, numElements is 0,
the dirty flag is false, the key slots (and, for a leaf, the value slots)
are zeroed and the leaf's next field is INVALID_PAGE_ID — but the child
slots of an internal node are NOT initialized to INVALID_PAGE_ID: the
initialization loop is bounded by m_numElements, which was set to 0 two
lines earlier, so every child slot keeps the stale bytes of the allocated
buffer (here 7), exactly the slots btree_next_internal later tests against
INVALID_PAGE_ID. -/
theorem C6_create_node_divergence :
    (btree_create_node 8 8 0 0 demoPoolC6 BTNodeType.E_INTERNAL).1 = ErrorCode.E_NO_ERROR ∧
    ((btree_create_node 8 8 0 0 demoPoolC6 BTNodeType.E_INTERNAL).2.2.map
      (fun n => n.header.m_numElements)) = some 0 ∧
    ((btree_create_node 8 8 0 0 demoPoolC6 BTNodeType.E_INTERNAL).2.2.map
      (fun n => n.m_dirty)) = some false ∧
    ((btree_create_node 8 8 0 0 demoPoolC6 BTNodeType.E_INTERNAL).2.2.map
      (fun n => n.keys)) = some (List.replicate 252 0) ∧
    ((btree_create_node 8 8 0 0 demoPoolC6 BTNodeType.E_INTERNAL).2.2.map
      (fun n => n.children)) = some (List.replicate 252 7) ∧
    some (List.replicate 252 7) ≠ some (List.replicate 252 INVALID_PAGE_ID) ∧
    ((btree_create_node 8 8 0 0 demoPoolC6 BTNodeType.E_LEAF).2.2.map
      (fun n => n.values)) = some (List.replicate 252 0) ∧
    ((btree_create_node 8 8 0 0 demoPoolC6 BTNodeType.E_LEAF).2.2.map
      (fun n => n.m_next)) = some INVALID_PAGE_ID :=
  ⟨rfl, rfl, rfl, rfl, rfl, by decide, rfl, rfl⟩

/-- C5: btree_get on a leaf computes i = next_leaf — the leftmost index
i < numElements with keys[i] ≥ key, else numElements — and returns the value
at i exactly when i < numElements and keys[i] == key, else
E_BTREE_KEY_NOT_FOUND; on an internal node it computes i = next_internal,
returns E_BTREE_KEY_NOT_FOUND when child[i] == INVALID_PAGE_ID, and
otherwise loads child[i], recurses, unloads the child regardless of the
outcome and propagates the recursion's error and value. -/
theorem C5_get_characterization {K V : Type} [LinearOrder K] [Inhabited K] [Inhabited V]
    (kSize vSize fuel : Nat) (bp : BufferPool K V) (node : BTNode K V) (key : K) :
    (node.header.m_type = BTNodeType.E_LEAF →
      (btree_next_leaf node key ≤ node.header.m_numElements ∧
       (∀ j, j < btree_next_leaf node key → node.keys.getD j default < key) ∧
       (btree_next_leaf node key < node.header.m_numElements →
         key ≤ node.keys.getD (btree_next_leaf node key) default)) ∧
      (btree_get kSize vSize (fuel + 1) bp node key =
        if btree_next_leaf node key < node.header.m_numElements ∧
           node.keys.getD (btree_next_leaf node key) default = key then
          (ErrorCode.E_NO_ERROR, bp, some (node.values.getD (btree_next_leaf node key) default))
        else (ErrorCode.E_BTREE_KEY_NOT_FOUND, bp, none))) ∧
    (node.header.m_type = BTNodeType.E_INTERNAL →
      ∀ c, node.children.getD (btree_next_internal node key) 0 = c →
      ((c = INVALID_PAGE_ID →
         btree_get kSize vSize (fuel + 1) bp node key =
           (ErrorCode.E_BTREE_KEY_NOT_FOUND, bp, none)) ∧
       (c ≠ INVALID_PAGE_ID →
         (isError (btree_load_node kSize vSize bp c).1 = true →
           btree_get kSize vSize (fuel + 1) bp node key =
             ((btree_load_node kSize vSize bp c).1,
              (btree_load_node kSize vSize bp c).2.1, none)) ∧
         (∀ (child : BTNode K V) (bp1 : BufferPool K V),
           btree_load_node kSize vSize bp c = (ErrorCode.E_NO_ERROR, bp1, some child) →
           btree_get kSize vSize (fuel + 1) bp node key =
             ((btree_get kSize vSize fuel bp1 child key).1,
              (btree_unload_node (btree_get kSize vSize fuel bp1 child key).2.1 child).2,
              (btree_get kSize vSize fuel bp1 child key).2.2))))) := by
  constructor
  · intro hleaf
    constructor
    · obtain ⟨ha, hb, hcond, hfail⟩ :=
        btree_next_leaf_go_spec node.keys key node.header.m_numElements 0
      unfold btree_next_leaf
      refine ⟨by omega, fun j hj => hcond j (by omega) hj, fun hlt => ?_⟩
      exact le_of_not_lt (hfail (by omega))
    · simp only [btree_get, hleaf]
  · intro hint c hc
    refine ⟨?_, ?_⟩
    · intro hcinv
      simp only [btree_get, hint, hc, hcinv]
      simp
    · intro hcvalid
      constructor
      · intro herr
        simp only [btree_get, hint, hc]
        rw [if_pos hcvalid, if_pos herr]
      · intro child bp1 hload
        simp only [btree_get, hint, hc]
        rw [if_pos hcvalid, hload]
        simp [isError]

/-- Unfolding of btree_load_node when the pool cannot produce the page:
the pin fails and the pool is untouched. -/
theorem btree_load_node_none {K V : Type} (kSize vSize : Nat) (bp : BufferPool K V)
    (pId : Nat) (h : bp.pages.lookup pId = none) :
    btree_load_node kSize vSize bp pId = (ErrorCode.E_BUFFER_POOL_PIN_FAILED, bp, none) := by
  unfold btree_load_node BufferPool.pin
  rw [h]

/-- Unfolding of btree_load_node on a size mismatch: pin, then unpin, then
report corruption. -/
theorem btree_load_node_corrupt {K V : Type} (kSize vSize : Nat) (bp : BufferPool K V)
    (pId : Nat) (pg : Page K V) (h : bp.pages.lookup pId = some pg)
    (hm : pg.header.m_keySize ≠ kSize ∨ pg.header.m_elementSize ≠
      (if pg.header.m_type = BTNodeType.E_INTERNAL then sizeofPageIdT else vSize)) :
    btree_load_node kSize vSize bp pId =
      (ErrorCode.E_BTREE_CORRUPTED_PAGE,
       (BufferPool.unpin { bp with pins := pId :: bp.pins } pId).2, none) := by
  unfold btree_load_node BufferPool.pin
  simp only [h]
  rw [if_pos hm]

/-- Unfolding of btree_load_node on a successful, size-consistent pin. -/
theorem btree_load_node_ok {K V : Type} (kSize vSize : Nat) (bp : BufferPool K V)
    (pId : Nat) (pg : Page K V) (h : bp.pages.lookup pId = some pg)
    (hm : ¬(pg.header.m_keySize ≠ kSize ∨ pg.header.m_elementSize ≠
      (if pg.header.m_type = BTNodeType.E_INTERNAL then sizeofPageIdT else vSize))) :
    btree_load_node kSize vSize bp pId =
      (ErrorCode.E_NO_ERROR, { bp with pins := pId :: bp.pins },
       some { m_pId := pId, header := pg.header, keys := pg.keys,
              children := pg.children, values := pg.values, m_next := 0,
              m_dirty := false }) := by
  unfold btree_load_node BufferPool.pin
  simp only [h]
  rw [if_neg hm]

/-- Unpinning the pin just taken restores the pin multiset. -/
theorem unpin_pins_of_head {K V : Type} (bp : BufferPool K V) (pId : Nat)
    (rest : List Nat) (h : bp.pins = pId :: rest) : (bp.unpin pId).2.pins = rest := by
  unfold BufferPool.unpin
  rw [h, if_pos (List.mem_cons_self pId rest)]
  simp [List.erase_cons_head]

/-- Unloading a node that was never marked dirty just unpins it; on a pool
whose newest pin is that node's page, this restores the previous pins. -/
theorem unload_clean_pins {K V : Type} (bp : BufferPool K V) (node : BTNode K V)
    (rest : List Nat) (hd : node.m_dirty = false) (h : bp.pins = node.m_pId :: rest) :
    (btree_unload_node bp node).2.pins = rest := by
  unfold btree_unload_node
  rw [hd]
  exact unpin_pins_of_head bp node.m_pId rest h

/-- C7: btree_load_node returns E_BTREE_CORRUPTED_PAGE exactly when the
pinned page's header keySize differs from sizeof(K) or its elementSize
differs from the expected element size for the page's type, and on that
path the pin it took is dropped again before returning; and btree_get is
pin-neutral on every exit path — the pool's pin multiset after the call,
errors included, is exactly the one before it. -/
theorem C7_load_unpin_discipline {K V : Type} [LinearOrder K] [Inhabited K] [Inhabited V]
    (kSize vSize : Nat) :
    (∀ (bp : BufferPool K V) (pId : Nat),
      (((btree_load_node kSize vSize bp pId).1 = ErrorCode.E_BTREE_CORRUPTED_PAGE) ↔
        (∃ pg, bp.pages.lookup pId = some pg ∧
          (pg.header.m_keySize ≠ kSize ∨ pg.header.m_elementSize ≠
            (if pg.header.m_type = BTNodeType.E_INTERNAL then sizeofPageIdT else vSize)))) ∧
      ((btree_load_node kSize vSize bp pId).1 = ErrorCode.E_BTREE_CORRUPTED_PAGE →
        (btree_load_node kSize vSize bp pId).2.1.pins = bp.pins)) ∧
    (∀ (fuel : Nat) (bp : BufferPool K V) (node : BTNode K V) (key : K),
      (btree_get kSize vSize fuel bp node key).2.1.pins = bp.pins) := by
  constructor
  · intro bp pId
    constructor
    · constructor
      · intro hcor
        cases hlk : bp.pages.lookup pId with
        | none =>
          rw [btree_load_node_none kSize vSize bp pId hlk] at hcor
          cases hcor
        | some pg =>
          by_cases hm : (pg.header.m_keySize ≠ kSize ∨ pg.header.m_elementSize ≠
            (if pg.header.m_type = BTNodeType.E_INTERNAL then sizeofPageIdT else vSize))
          · exact ⟨pg, rfl, hm⟩

          · rw [btree_load_node_ok kSize vSize bp pId pg hlk hm] at hcor
            cases hcor
      · rintro ⟨pg, hlk, hm⟩
        rw [btree_load_node_corrupt kSize vSize bp pId pg hlk hm]
    · intro hcor
      cases hlk : bp.pages.lookup pId with
      | none =>
        rw [btree_load_node_none kSize vSize bp pId hlk] at hcor
        cases hcor
      | some pg =>
        by_cases hm : (pg.header.m_keySize ≠ kSize ∨ pg.header.m_elementSize ≠
          (if pg.header.m_type = BTNodeType.E_INTERNAL then sizeofPageIdT else vSize))
        · rw [btree_load_node_corrupt kSize vSize bp pId pg hlk hm]
          exact unpin_pins_of_head { bp with pins := pId :: bp.pins } pId bp.pins rfl
        · rw [btree_load_node_ok kSize vSize bp pId pg hlk hm] at hcor
          cases hcor
  · intro fuel
    induction fuel with
    | zero => intro bp node key; rfl
    | succ f ih =>
      intro bp node key
      cases htype : node.header.m_type with
      | E_LEAF =>
        simp only [btree_get, htype]
        split_ifs <;> rfl
      | E_INTERNAL =>
        simp only [btree_get, htype]
        by_cases hchild : node.children.getD (btree_next_internal node key) 0 ≠ INVALID_PAGE_ID
        · rw [if_pos hchild]
          generalize node.children.getD (btree_next_internal node key) 0 = c at hchild ⊢
          cases hlk : bp.pages.lookup c with
          | none =>
            rw [btree_load_node_none kSize vSize bp c hlk]
            rfl
          | some pg =>
            by_cases hm : (pg.header.m_keySize ≠ kSize ∨ pg.header.m_elementSize ≠
              (if pg.header.m_type = BTNodeType.E_INTERNAL then sizeofPageIdT else vSize))
            · rw [btree_load_node_corrupt kSize vSize bp c pg hlk hm]
              exact unpin_pins_of_head { bp with pins := c :: bp.pins } c bp.pins rfl
            · rw [btree_load_node_ok kSize vSize bp c pg hlk hm]
              show (btree_unload_node
                  (btree_get kSize vSize f { bp with pins := c :: bp.pins }
                    { m_pId := c, header := pg.header, keys := pg.keys,
                      children := pg.children, values := pg.values, m_next := 0,
                      m_dirty := false } key).2.1
                  { m_pId := c, header := pg.header, keys := pg.keys,
                    children := pg.children, values := pg.values, m_next := 0,
                    m_dirty := false }).2.pins = bp.pins
              refine unload_clean_pins _ _ bp.pins rfl ?_
              rw [ih]
        · rw [if_neg hchild]

/-- A well-formed leaf page holding keys 1, 3 with values 10, 30. -/
def demoLeaf : BTNode Nat Nat :=
  { m_pId := 2,
    header := { m_type := BTNodeType.E_LEAF, m_maxNumElements := 4, m_numElements := 2,
                m_keySize := 8, m_keyStart := 48, m_elementSize := 8, m_elementStart := 80 },
    keys := [1, 3, 0, 0], children := [], values := [10, 30, 0, 0],
    m_next := INVALID_PAGE_ID, m_dirty := false }

/-- The pooled page behind `demoLeaf`. -/
def demoPage : Page Nat Nat :=
  { header := demoLeaf.header, keys := demoLeaf.keys, children := [],
    values := demoLeaf.values }

/-- A pool holding just the demo leaf page, nothing pinned. -/
def demoPool : BufferPool Nat Nat :=
  { m_pageSize := 4096, pages := [(2, demoPage)], freshPages := [], pins := [],
    dirtyList := [] }

/-- A page whose stored keySize (4) contradicts the caller's sizeof(K) = 8. -/
def corruptPage : Page Nat Nat :=
  { header := { m_type := BTNodeType.E_LEAF, m_maxNumElements := 4, m_numElements := 0,
                m_keySize := 4, m_keyStart := 48, m_elementSize := 8, m_elementStart := 80 },
    keys := [], children := [], values := [] }

/-- A pool holding the corrupt page under page id 3. -/
def corruptPool : BufferPool Nat Nat :=
  { m_pageSize := 4096, pages := [(3, corruptPage)], freshPages := [], pins := [],
    dirtyList := [] }

/-- C5 witness: the leaf half of the get characterization applied to the
concrete leaf and key 3 (which the leaf holds with value 30). -/
theorem C5_get_characterization_witness :
    demoLeaf.header.m_type = BTNodeType.E_LEAF ∧
    btree_get 8 8 1 demoPool demoLeaf 3 =
      (if btree_next_leaf demoLeaf 3 < demoLeaf.header.m_numElements ∧
          demoLeaf.keys.getD (btree_next_leaf demoLeaf 3) default = 3 then
        (ErrorCode.E_NO_ERROR, demoPool,
         some (demoLeaf.values.getD (btree_next_leaf demoLeaf 3) default))
      else (ErrorCode.E_BTREE_KEY_NOT_FOUND, demoPool, none)) :=
  ⟨rfl, ((C5_get_characterization 8 8 0 demoPool demoLeaf 3).1 rfl).2⟩

/-- C7 witness: the pin discipline applied to the corrupt page (load
reports corruption with the pin dropped) and to a concrete get. -/
theorem C7_load_unpin_discipline_witness :
    (btree_load_node 8 8 corruptPool 3).1 = ErrorCode.E_BTREE_CORRUPTED_PAGE ∧
    (btree_load_node 8 8 corruptPool 3).2.1.pins = corruptPool.pins ∧
    (btree_get 8 8 1 demoPool demoLeaf 3).2.1.pins = demoPool.pins :=
  ⟨by decide, ((C7_load_unpin_discipline 8 8).1 corruptPool 3).2 (by decide),
   (C7_load_unpin_discipline 8 8).2 1 demoPool demoLeaf 3⟩
